import Mathlib

/-!
Verification development for the `online-room-condition-forms` repository.

The repository ships the application bootstrap module
(`mirthful_rcis/__init__.py`, whose `dict_factory` is embedded below
directly from the source) and the test suite `tests/test_librci.py` for the
data-access layer `librci`.  The `librci` module itself is not part of the
shipped sources, so its operations are modelled here from the
specification's description of the layer ("a permission-checked data-access
layer that mediates all reads/writes to RCI records against a relational
store, enforcing authorization rules, handling soft-relationship decay
(deleted users), and supporting search/listing across buildings and
collaborators") together with the behaviour its test suite pins down.
-/

namespace MirthfulRcis

/-- Modelled from the spec: the permission flags of the authorization
module (`mirthful_rcis.lib.authorization.Permission`), of which the spec
names MODERATE_RCIS, "a permission flag granting cross-user record
access".  The module itself is not in the shipped sources. -/
inductive Permission where
  | MODERATE_RCIS
deriving DecidableEq, BEq

/-- Modelled from the spec: a row of the `users` table.  The test suite
reads `user_id`, `username`, `firstname`, `lastname` and the permission
set of a user. -/
structure User where
  user_id : String
  username : String
  firstname : String
  lastname : String
  permissions : List Permission
deriving DecidableEq

/-- Modelled from the spec: a row of the `rcis` table ("each RCI documents
a room, its collaborators (inspectors), and itemized damages").  The test
suite reads `rci_id`, `building_name`, `room_name` and `created_by`; the
lock state backs `lock_rci` / `unlock_rci`. -/
structure Rci where
  rci_id : String
  building_name : String
  room_name : String
  created_by : String
  is_locked : Bool
deriving DecidableEq

/-- Modelled from the spec: a row of the `rci_collabs` join table linking
an RCI to a collaborator ("a user associated with an RCI as an
inspector/author"). -/
structure RciCollab where
  rci_id : String
  user_id : String
deriving DecidableEq

/-- Modelled from the spec: a row of the `damages` table ("an itemized
defect entry tied to an RCI and a room component"), recording which user
entered it. -/
structure Damage where
  damage_id : String
  rci_id : String
  item : String
  text : String
  created_by : String
deriving DecidableEq

/-- Modelled from the spec: the relational store the data-access layer
mediates.  `next_id` models the generation of fresh record ids. -/
structure Db where
  users : List User
  rcis : List Rci
  rci_collabs : List RciCollab
  damages : List Damage
  next_id : Nat
deriving DecidableEq

/-- Modelled from the spec: a value passed from Python for an id
parameter, which is either a string or some non-string object (the tests
pass a raw `uuid4()` object to provoke `ValueError`). -/
inductive PyVal where
  | str (s : String)
  | nonstr
deriving DecidableEq

/-- Modelled from the spec: the domain exceptions of
`mirthful_rcis.lib.exceptions` that "map to HTTP error codes";
`RecordNotFound` and `Unauthorized` are imported by the test suite, and
`ValueError` is Python's builtin. -/
inductive LibError where
  | recordNotFound (msg : String)
  | unauthorized (msg : String)
  | valueError (msg : String)
deriving DecidableEq

/-- Message of the `Unauthorized` exception, as asserted by the tests
(it contains "do not have sufficient permissions"). -/
def unauthorizedMsg : String :=
  "You do not have sufficient permissions to perform this action"

/-- Message of the `ValueError` raised for a non-string id, as asserted by
the tests (it contains "not a valid id").  The Python message interpolates
the offending value; the model keeps the asserted core. -/
def invalidIdMsg : String := "The given value is not a valid id"

/-- Substring containment on messages: `m` contains `sub` verbatim. -/
def msgContains (m sub : String) : Prop := ∃ a b, m = a ++ (sub ++ b)

/-- Boolean success test for a fallible operation. -/
def isOk {ε α : Type} : Except ε α → Bool
  | .ok _ => true
  | .error _ => false

/-- Creator id recorded on the record returned by a creation operation,
when it succeeded. -/
def created_by_of : Except LibError (Rci × Db) → Option String
  | .ok (r, _) => some r.created_by
  | .error _ => none

/-- Lookup of a user row by primary key. -/
def find_user (db : Db) (uid : String) : Option User :=
  db.users.find? (fun u => u.user_id == uid)

/-- Lookup of an rci row by primary key. -/
def find_rci (db : Db) (rid : String) : Option Rci :=
  db.rcis.find? (fun r => r.rci_id == rid)

/-- Modelled from the spec: whether a user holds a permission flag. -/
def has_permission (u : User) (p : Permission) : Bool :=
  u.permissions.contains p

/-- Collaborator rows of an rci joined (inner join) with the users table:
a deleted user silently drops out of the collaborator list. -/
def collaborators_of (db : Db) (rid : String) : List User :=
  (db.rci_collabs.filter (fun c => c.rci_id == rid)).filterMap
    (fun c => find_user db c.user_id)

/-- Damage rows attached to an rci. -/
def damages_of (db : Db) (rid : String) : List Damage :=
  db.damages.filter (fun d => d.rci_id == rid)

/-- Shape of a damage entry as rendered inside a full rci record: the
damage row joined (left join) with the user who entered it, the names
falling back to DELETED / USER when that user row no longer exists. -/
structure DamageView where
  item : String
  text : String
  firstname : String
  lastname : String
  created_by : String
deriving DecidableEq

/-- Modelled from the spec: soft-relationship decay on the damage join;
"a deleted user" leaves the damage in place with placeholder names. -/
def damage_view (db : Db) (d : Damage) : DamageView :=
  match find_user db d.created_by with
  | some u => ⟨d.item, d.text, u.firstname, u.lastname, d.created_by⟩
  | none => ⟨d.item, d.text, "DELETED", "USER", d.created_by⟩

/-- Shape of the dictionary returned by `get_rci_by_id`: the rci row,
plus the `collaborators` and `damages` keys, present exactly when the
record was requested with `full=True`. -/
structure RciView where
  rci : Rci
  collaborators : Option (List User)
  damages : Option (List DamageView)
deriving DecidableEq

/-- Modelled from the spec: `librci.get_rci_by_id(rci_id, full)`.  A
non-string id raises `ValueError`, an unknown id raises `RecordNotFound`
("No such rci"), and the `full` flag controls whether the collaborator and
damage joins are attached to the returned record. -/
def get_rci_by_id (db : Db) (rci_id : PyVal) (full : Bool) :
    Except LibError RciView :=
  match rci_id with
  | .nonstr => .error (.valueError invalidIdMsg)
  | .str rid =>
    match find_rci db rid with
    | none => .error (.recordNotFound ("No such rci " ++ rid))
    | some r =>
      if full then
        .ok ⟨r, some (collaborators_of db rid),
             some ((damages_of db rid).map (damage_view db))⟩
      else
        .ok ⟨r, none, none⟩

/-- Rcis on which the given user is a collaborator. -/
def rcis_for_user_query (db : Db) (uid : String) : List Rci :=
  db.rcis.filter (fun r =>
    db.rci_collabs.any (fun c => c.rci_id == r.rci_id && c.user_id == uid))

/-- Modelled from the spec: `librci.get_rcis_for_user(user_id,
logged_in_user)`.  A non-string id raises `ValueError`, an unknown user
raises `RecordNotFound` ("No such user"), and the lookup is allowed only
for the logged-in user's own records or for a holder of MODERATE_RCIS
("a permission flag granting cross-user record access"). -/
def get_rcis_for_user (db : Db) (user_id : PyVal) (logged_in_user : User) :
    Except LibError (List Rci) :=
  match user_id with
  | .nonstr => .error (.valueError invalidIdMsg)
  | .str uid =>
    match find_user db uid with
    | none => .error (.recordNotFound ("No such user " ++ uid))
    | some _ =>
      if logged_in_user.user_id == uid ||
         has_permission logged_in_user Permission.MODERATE_RCIS then
        .ok (rcis_for_user_query db uid)
      else
        .error (.unauthorized unauthorizedMsg)

/-- Modelled from the spec: `librci.get_rcis_for_buildings(buildings,
logged_in_user)`, a MODERATE_RCIS-gated listing of the rcis located in any
of the given buildings. -/
def get_rcis_for_buildings (db : Db) (buildings : List String)
    (logged_in_user : User) : Except LibError (List Rci) :=
  if has_permission logged_in_user Permission.MODERATE_RCIS then
    .ok (db.rcis.filter (fun r => buildings.contains r.building_name))
  else
    .error (.unauthorized unauthorizedMsg)

/-- Whether an rci matches a search string: by building name, room name,
or the firstname, lastname or username of one of its collaborators. -/
def rci_matches (db : Db) (s : String) (r : Rci) : Bool :=
  r.building_name == s || r.room_name == s ||
  db.rci_collabs.any (fun c =>
    c.rci_id == r.rci_id &&
    db.users.any (fun u =>
      u.user_id == c.user_id &&
      (u.firstname == s || u.lastname == s || u.username == s)))

/-- Modelled from the spec: `librci.search_rcis(search_string,
logged_in_user)`, a MODERATE_RCIS-gated search "across buildings and
collaborators".  Input the search cannot make sense of (`None` or the
empty string) yields an empty result list instead of an exception. -/
def search_rcis (db : Db) (search_string : Option String)
    (logged_in_user : User) : Except LibError (List Rci) :=
  if has_permission logged_in_user Permission.MODERATE_RCIS then
    match search_string with
    | none => .ok []
    | some s =>
      if s = "" then .ok []
      else .ok (db.rcis.filter (fun r => rci_matches db s r))
  else
    .error (.unauthorized unauthorizedMsg)

/-- Modelled from the spec: `librci.create_rci(user_id, building_name,
room_name, logged_in_user)`.  Creating a record for someone else requires
MODERATE_RCIS; the new record's `created_by` is the logged-in user and the
target user is attached as a collaborator.  Fresh-id generation (uuid4 in
the application) is modelled with the store's counter. -/
def create_rci (db : Db) (user_id building_name room_name : String)
    (logged_in_user : User) : Except LibError (Rci × Db) :=
  if user_id == logged_in_user.user_id ||
     has_permission logged_in_user Permission.MODERATE_RCIS then
    let rid := "rci-" ++ toString db.next_id
    let r : Rci := ⟨rid, building_name, room_name,
                    logged_in_user.user_id, false⟩
    .ok (r, { db with rcis := db.rcis ++ [r],
                      rci_collabs := db.rci_collabs ++ [⟨rid, user_id⟩],
                      next_id := db.next_id + 1 })
  else
    .error (.unauthorized unauthorizedMsg)

/-- Modelled from the spec: `librci.lock_rci(rci_id, logged_in_user)`, a
MODERATE_RCIS-gated update setting the lock flag of a record. -/
def lock_rci (db : Db) (rci_id : String) (logged_in_user : User) :
    Except LibError Db :=
  if has_permission logged_in_user Permission.MODERATE_RCIS then
    .ok { db with rcis := db.rcis.map (fun r =>
            if r.rci_id == rci_id then { r with is_locked := true } else r) }
  else
    .error (.unauthorized unauthorizedMsg)

/-- Modelled from the spec: `librci.unlock_rci(rci_id, logged_in_user)`,
the MODERATE_RCIS-gated counterpart of `lock_rci`. -/
def unlock_rci (db : Db) (rci_id : String) (logged_in_user : User) :
    Except LibError Db :=
  if has_permission logged_in_user Permission.MODERATE_RCIS then
    .ok { db with rcis := db.rcis.map (fun r =>
            if r.rci_id == rci_id then { r with is_locked := false } else r) }
  else
    .error (.unauthorized unauthorizedMsg)

/-- Deletion of a user row, as done by the test suite directly on the
`users` table (`delete from users where user_id = ?`). -/
def delete_user (db : Db) (uid : String) : Db :=
  { db with users := db.users.filter (fun u => u.user_id != uid) }

/-- One entry of `cursor.description`: a tuple whose first element
(`col[0]`) is the column name; the remaining elements are not inspected
by `dict_factory` and are kept opaque. -/
structure Col where
  name : String
  rest : List String
deriving DecidableEq

/-- Python dictionary assignment `d[k] = v` on an insertion-ordered
dictionary represented as a duplicate-free association list: an existing
key keeps its position and gets the new value, a new key is appended. -/
def pyDictSet {α : Type} (d : List (String × α)) (k : String) (v : α) :
    List (String × α) :=
  if d.any (fun p => p.1 == k) then
    d.map (fun p => if p.1 == k then (p.1, v) else p)
  else
    d ++ [(k, v)]

/-- Loop of `dict_factory` over `enumerate(cursor.description)`: each
column writes `d[col[0]] = row[idx]`; an out-of-range `row[idx]` is
Python's IndexError. -/
def dict_factory_go {α : Type} (cols : List Col) (row : List α) (idx : Nat)
    (d : List (String × α)) : Except String (List (String × α)) :=
  match cols with
  | [] => .ok d
  | c :: cs =>
    match row[idx]? with
    | none => .error "IndexError"
    | some v => dict_factory_go cs row (idx + 1) (pyDictSet d c.name v)

/-- Embedding of `dict_factory(cursor, row)` from
`mirthful_rcis/__init__.py`: starting from the empty dictionary, for each
`idx, col` in `enumerate(cursor.description)` it sets
`d[col[0]] = row[idx]` and returns `d`. -/
def dict_factory {α : Type} (cursor_description : List Col) (row : List α) :
    Except String (List (String × α)) :=
  dict_factory_go cursor_description row 0 []

/-- Sample moderator: a user holding the MODERATE_RCIS permission. -/
def modUser : User := ⟨"mod-1", "mona", "Mona", "Moody", [Permission.MODERATE_RCIS]⟩

/-- Sample basic user without any permission. -/
def plainUser : User := ⟨"plain-1", "paul", "Paul", "Plain", []⟩

/-- Sample collaborator user without any permission. -/
def collabUser : User := ⟨"collab-1", "carl", "Carl", "Collab", []⟩

/-- Sample rci created by (and collaborated on by) `collabUser`. -/
def exRci : Rci := ⟨"rci-1", "Johnson Hall", "Room 101", "collab-1", false⟩

/-- Sample damage entered by `collabUser` on `exRci`. -/
def exDamage : Damage := ⟨"dmg-1", "rci-1", "wall", "hole in the wall", "collab-1"⟩

/-- Sample store with three users, one rci, one collaboration and one
damage. -/
def exDb : Db :=
  ⟨[modUser, plainUser, collabUser], [exRci], [⟨"rci-1", "collab-1"⟩],
   [exDamage], 0⟩

/-- Sample rci whose building name is the empty string. -/
def emptyBuildingRci : Rci := ⟨"rci-2", "", "Room 2", "collab-1", false⟩

/-- Sample store holding only `emptyBuildingRci`. -/
def emptyBuildingDb : Db :=
  ⟨[modUser, collabUser], [emptyBuildingRci], [⟨"rci-2", "collab-1"⟩], [], 0⟩

/-- Claim C10: for an existing rci id the record fetched with `full=True`
carries the `collaborators` and `damages` keys, and the record fetched
with `full=False` carries neither. -/
theorem C10_full_flag (db : Db) (rid : String) (r : Rci)
    (h : find_rci db rid = some r) :
    get_rci_by_id db (.str rid) true =
      .ok ⟨r, some (collaborators_of db rid),
           some ((damages_of db rid).map (damage_view db))⟩ ∧
    (get_rci_by_id db (.str rid) true).toOption.all
      (fun v => v.collaborators.isSome && v.damages.isSome) = true ∧
    get_rci_by_id db (.str rid) false = .ok ⟨r, none, none⟩ ∧
    (get_rci_by_id db (.str rid) false).toOption.all
      (fun v => !v.collaborators.isSome && !v.damages.isSome) = true := by
  simp [get_rci_by_id, h, Except.toOption, Option.all]

/-- Instantiation of C10 on the sample store. -/
theorem C10_witness :
    find_rci exDb "rci-1" = some exRci ∧
    (get_rci_by_id exDb (.str "rci-1") true).toOption.all
      (fun v => v.collaborators.isSome && v.damages.isSome) = true ∧
    get_rci_by_id exDb (.str "rci-1") false = .ok ⟨exRci, none, none⟩ :=
  ⟨rfl, (C10_full_flag exDb "rci-1" exRci rfl).2.1,
   (C10_full_flag exDb "rci-1" exRci rfl).2.2.1⟩

/-- Claim C7: for a logged-in user holding MODERATE_RCIS, searching with
`None` or with the empty string returns an empty list instead of raising
an exception. -/
theorem C7_search_unusable_input (db : Db) (u : User)
    (hp : has_permission u Permission.MODERATE_RCIS = true) :
    search_rcis db none u = .ok [] ∧
    search_rcis db (some "") u = .ok [] := by
  simp [search_rcis, hp]

/-- Instantiation of C7 on the sample store. -/
theorem C7_witness :
    has_permission modUser Permission.MODERATE_RCIS = true ∧
    search_rcis exDb none modUser = .ok [] ∧
    search_rcis exDb (some "") modUser = .ok [] :=
  ⟨rfl, C7_search_unusable_input exDb modUser rfl⟩

/-- Claim C6: for a logged-in user holding MODERATE_RCIS,
`get_rcis_for_buildings` returns exactly the rcis whose building name is
in the given list, and in particular an empty list when no rci lies in a
listed building. -/
theorem C6_rcis_for_buildings (db : Db) (bs : List String) (u : User)
    (hp : has_permission u Permission.MODERATE_RCIS = true) :
    get_rcis_for_buildings db bs u =
      .ok (db.rcis.filter (fun r => bs.contains r.building_name)) ∧
    (∀ r ∈ db.rcis, r.building_name ∉ bs →
      r ∉ (db.rcis.filter (fun r => bs.contains r.building_name))) ∧
    (∀ r ∈ db.rcis, r.building_name ∈ bs →
      r ∈ (db.rcis.filter (fun r => bs.contains r.building_name))) ∧
    ((∀ r ∈ db.rcis, r.building_name ∉ bs) →
      get_rcis_for_buildings db bs u = .ok []) := by
  refine ⟨by simp [get_rcis_for_buildings, hp], ?_, ?_, ?_⟩
  · intro r _ hnot hmem
    exact hnot (by simpa using (List.mem_filter.mp hmem).2)
  · intro r hr hmem
    exact List.mem_filter.mpr ⟨hr, by simpa using hmem⟩
  · intro hnone
    simpa [get_rcis_for_buildings, hp] using hnone

/-- Instantiation of C6 on the sample store: the sample rci is in
"Johnson Hall" and is listed for that building, while a lookup for a
building that does not exist yields the empty list. -/
theorem C6_witness :
    has_permission modUser Permission.MODERATE_RCIS = true ∧
    get_rcis_for_buildings exDb ["Johnson Hall"] modUser = .ok [exRci] ∧
    get_rcis_for_buildings exDb ["invalid-building"] modUser = .ok [] := by
  refine ⟨rfl, ?_, ?_⟩
  · have h := (C6_rcis_for_buildings exDb ["Johnson Hall"] modUser rfl).1
    simpa using h
  · exact (C6_rcis_for_buildings exDb ["invalid-building"] modUser rfl).2.2.2
      (by decide)

/-- Claim C4: each MODERATE_RCIS-gated operation (`search_rcis`,
`get_rcis_for_buildings`, `lock_rci`, `unlock_rci`) raises `Unauthorized`
with a message containing "do not have sufficient permissions" exactly
when the logged-in user lacks the permission, and succeeds otherwise. -/
theorem C4_gated_operations (db : Db) (s : Option String) (bs : List String)
    (rid1 rid2 : String) (u : User) :
    (has_permission u Permission.MODERATE_RCIS = true →
      isOk (search_rcis db s u) = true ∧
      isOk (get_rcis_for_buildings db bs u) = true ∧
      isOk (lock_rci db rid1 u) = true ∧
      isOk (unlock_rci db rid2 u) = true) ∧
    (has_permission u Permission.MODERATE_RCIS = false →
      search_rcis db s u = .error (.unauthorized unauthorizedMsg) ∧
      get_rcis_for_buildings db bs u = .error (.unauthorized unauthorizedMsg) ∧
      lock_rci db rid1 u = .error (.unauthorized unauthorizedMsg) ∧
      unlock_rci db rid2 u = .error (.unauthorized unauthorizedMsg) ∧
      msgContains unauthorizedMsg "do not have sufficient permissions") := by
  constructor
  · intro hp
    refine ⟨?_, ?_, ?_, ?_⟩
    · cases s with
      | none => simp [search_rcis, hp, isOk]
      | some str =>
        by_cases hstr : str = "" <;> simp [search_rcis, hp, hstr, isOk]
    · simp [get_rcis_for_buildings, hp, isOk]
    · simp [lock_rci, hp, isOk]
    · simp [unlock_rci, hp, isOk]
  · intro hp
    refine ⟨?_, ?_, ?_, ?_, "You ", " to perform this action", rfl⟩
    · simp [search_rcis, hp]
    · simp [get_rcis_for_buildings, hp]
    · simp [lock_rci, hp]
    · simp [unlock_rci, hp]

/-- Instantiation of C4 on the sample store, on the moderator and on the
basic user. -/
theorem C4_witness :
    (isOk (search_rcis exDb (some "Room 101") modUser) = true ∧
     isOk (get_rcis_for_buildings exDb ["Johnson Hall"] modUser) = true ∧
     isOk (lock_rci exDb "rci-1" modUser) = true ∧
     isOk (unlock_rci exDb "rci-1" modUser) = true) ∧
    (search_rcis exDb (some "Room 101") plainUser =
       .error (.unauthorized unauthorizedMsg) ∧
     get_rcis_for_buildings exDb ["Johnson Hall"] plainUser =
       .error (.unauthorized unauthorizedMsg) ∧
     lock_rci exDb "rci-1" plainUser =
       .error (.unauthorized unauthorizedMsg) ∧
     unlock_rci exDb "rci-1" plainUser =
       .error (.unauthorized unauthorizedMsg) ∧
     msgContains unauthorizedMsg "do not have sufficient permissions") :=
  ⟨(C4_gated_operations exDb (some "Room 101") ["Johnson Hall"]
      "rci-1" "rci-1" modUser).1 rfl,
   (C4_gated_operations exDb (some "Room 101") ["Johnson Hall"]
      "rci-1" "rci-1" plainUser).2 rfl⟩

/-- Associativity of string concatenation, used to locate substrings in
error messages. -/
theorem string_append_assoc (a b c : String) : a ++ b ++ c = a ++ (b ++ c) := by
  cases a; cases b; cases c
  show String.append (String.append _ _) _ = String.append _ (String.append _ _)
  simp [String.append]

/-- A message that starts with `s1 = sub ++ s2` contains `sub`. -/
theorem msgContains_append_head (s1 s2 sub : String) (h : s1 = sub ++ s2)
    (b : String) : msgContains (s1 ++ b) sub :=
  ⟨"", s2 ++ b, by rw [h, string_append_assoc, String.empty_append]⟩

/-- Claim C3: domain exceptions for invalid identifiers.
`get_rci_by_id` raises `RecordNotFound` (message containing "No such
rci") on a well-formed id matching no record and `ValueError` (message
containing "not a valid id") on a non-string id; `get_rcis_for_user` does
the same for its `user_id`, with `RecordNotFound` containing "No such
user". -/
theorem C3_invalid_identifiers (db : Db) (rid uid : String) (u : User)
    (full : Bool)
    (h1 : find_rci db rid = none) (h2 : find_user db uid = none) :
    get_rci_by_id db (.str rid) full =
      .error (.recordNotFound ("No such rci " ++ rid)) ∧
    msgContains ("No such rci " ++ rid) "No such rci" ∧
    get_rci_by_id db PyVal.nonstr full = .error (.valueError invalidIdMsg) ∧
    msgContains invalidIdMsg "not a valid id" ∧
    get_rcis_for_user db (.str uid) u =
      .error (.recordNotFound ("No such user " ++ uid)) ∧
    msgContains ("No such user " ++ uid) "No such user" ∧
    get_rcis_for_user db PyVal.nonstr u = .error (.valueError invalidIdMsg) := by
  refine ⟨by simp [get_rci_by_id, h1],
          msgContains_append_head "No such rci " " " "No such rci" rfl rid,
          rfl,
          ⟨"The given value is ", "", by decide⟩,
          by simp [get_rcis_for_user, h2],
          msgContains_append_head "No such user " " " "No such user" rfl uid,
          rfl⟩

/-- Instantiation of C3 on the sample store with fresh identifiers. -/
theorem C3_witness :
    find_rci exDb "no-such" = none ∧
    find_user exDb "no-such" = none ∧
    get_rci_by_id exDb (.str "no-such") false =
      .error (.recordNotFound ("No such rci " ++ "no-such")) ∧
    get_rcis_for_user exDb (.str "no-such") modUser =
      .error (.recordNotFound ("No such user " ++ "no-such")) ∧
    get_rcis_for_user exDb PyVal.nonstr modUser =
      .error (.valueError invalidIdMsg) :=
  ⟨rfl, rfl,
   (C3_invalid_identifiers exDb "no-such" "no-such" modUser false rfl rfl).1,
   (C3_invalid_identifiers exDb "no-such" "no-such" modUser false
      rfl rfl).2.2.2.2.1,
   (C3_invalid_identifiers exDb "no-such" "no-such" modUser false
      rfl rfl).2.2.2.2.2.2⟩

/-- Claim C1 counterexample: a logged-in user holding MODERATE_RCIS calls
`get_rcis_for_user` with a non-string `user_id`; the claim says every call
by a MODERATE_RCIS holder succeeds, but the call raises `ValueError`. -/
theorem C1_counterexample :
    has_permission modUser Permission.MODERATE_RCIS = true ∧
    get_rcis_for_user exDb PyVal.nonstr modUser =
      .error (.valueError invalidIdMsg) ∧
    isOk (get_rcis_for_user exDb PyVal.nonstr modUser) = false :=
  ⟨rfl, rfl, rfl⟩

/-- Claim C1 (amended): for every call whose `user_id` is a well-formed
string id of an existing user, the call succeeds and returns that user's
rcis when the logged-in user holds MODERATE_RCIS or `user_id` is their own
id, and otherwise raises `Unauthorized` with a message containing "do not
have sufficient permissions". -/
theorem C1_rcis_for_user_auth (db : Db) (uid : String) (u w : User)
    (hu : find_user db uid = some w) :
    ((u.user_id = uid ∨ has_permission u Permission.MODERATE_RCIS = true) →
      get_rcis_for_user db (.str uid) u = .ok (rcis_for_user_query db uid)) ∧
    (u.user_id ≠ uid → has_permission u Permission.MODERATE_RCIS = false →
      get_rcis_for_user db (.str uid) u =
        .error (.unauthorized unauthorizedMsg) ∧
      msgContains unauthorizedMsg "do not have sufficient permissions") := by
  constructor
  · rintro (h | h) <;> simp [get_rcis_for_user, hu, h]
  · intro h1 h2
    exact ⟨by simp [get_rcis_for_user, hu, h1, h2],
      ⟨"You ", " to perform this action", rfl⟩⟩

/-- Instantiation of C1 (amended) on the sample store: the moderator may
look up the collaborator's records, the basic user may not. -/
theorem C1_witness :
    find_user exDb "collab-1" = some collabUser ∧
    get_rcis_for_user exDb (.str "collab-1") modUser =
      .ok (rcis_for_user_query exDb "collab-1") ∧
    get_rcis_for_user exDb (.str "collab-1") plainUser =
      .error (.unauthorized unauthorizedMsg) :=
  ⟨rfl,
   (C1_rcis_for_user_auth exDb "collab-1" modUser collabUser rfl).1
     (Or.inr rfl),
   ((C1_rcis_for_user_auth exDb "collab-1" plainUser collabUser rfl).2
     (by decide) rfl).1⟩

/-- Claim C8: a user without MODERATE_RCIS can create an rci for
themselves (the returned record's `created_by` is their own id) but not
for a different user (`Unauthorized`); a MODERATE_RCIS holder can create
an rci for another user, the record's `created_by` being the logged-in
user's id. -/
theorem C8_create_rci_auth (db : Db) (b rm target1 target2 : String)
    (u1 u2 : User)
    (h1 : has_permission u1 Permission.MODERATE_RCIS = false)
    (h2 : has_permission u2 Permission.MODERATE_RCIS = true)
    (hne1 : target1 ≠ u1.user_id) (_hne2 : target2 ≠ u2.user_id) :
    created_by_of (create_rci db u1.user_id b rm u1) = some u1.user_id ∧
    create_rci db target1 b rm u1 = .error (.unauthorized unauthorizedMsg) ∧
    created_by_of (create_rci db target2 b rm u2) = some u2.user_id := by
  refine ⟨?_, ?_, ?_⟩
  · simp [create_rci, created_by_of]
  · simp [create_rci, created_by_of, h1, hne1]
  · simp [create_rci, created_by_of, h2]

/-- Instantiation of C8: the basic user creates for themselves, fails for
the moderator's id, and the moderator creates for the basic user. -/
theorem C8_witness :
    has_permission plainUser Permission.MODERATE_RCIS = false ∧
    has_permission modUser Permission.MODERATE_RCIS = true ∧
    created_by_of
      (create_rci exDb plainUser.user_id "Johnson Hall" "Room 102" plainUser)
      = some plainUser.user_id ∧
    create_rci exDb "mod-1" "Johnson Hall" "Room 102" plainUser =
      .error (.unauthorized unauthorizedMsg) ∧
    created_by_of (create_rci exDb "plain-1" "Johnson Hall" "Room 102" modUser)
      = some modUser.user_id :=
  ⟨rfl, rfl,
   C8_create_rci_auth exDb "Johnson Hall" "Room 102" "mod-1" "plain-1"
     plainUser modUser rfl rfl (by decide) (by decide)⟩

/-- After the deletion of a user their row can no longer be found. -/
theorem find_user_delete_self (db : Db) (uid : String) :
    find_user (delete_user db uid) uid = none := by
  refine List.find?_eq_none.mpr ?_
  intro x hx
  have hmem := List.mem_filter.mp hx
  simp only [bne_iff_ne, ne_eq, decide_eq_true_eq] at hmem
  simpa using hmem.2

/-- Every user still found after a deletion is a different user. -/
theorem find_user_delete_ne (db : Db) (uid x : String) (u2 : User)
    (h : find_user (delete_user db uid) x = some u2) : u2.user_id ≠ uid := by
  have hmem := List.mem_of_find?_eq_some h
  have hf := List.mem_filter.mp hmem
  simpa using hf.2

/-- The damage fields of a damage entry are rendered unchanged, whatever
the state of the user join. -/
theorem damage_view_proj (db : Db) (d : Damage) :
    (damage_view db d).item = d.item ∧ (damage_view db d).text = d.text ∧
    (damage_view db d).created_by = d.created_by := by
  unfold damage_view
  cases find_user db d.created_by <;> simp

/-- Claim C2: soft-relationship decay.  For an rci with a collaborator
`uid` who entered a damage, the collaborator appears on the record before
their user row is deleted; after the deletion `get_rci_by_id(rci_id,
full=True)` still succeeds, the damages of the rci (item, text, enterer)
are unchanged, the deleted user no longer appears among the
collaborators, and every damage they entered reports the names DELETED /
USER. -/
theorem C2_soft_decay (db : Db) (rid uid : String) (r : Rci) (w : User)
    (hr : find_rci db rid = some r)
    (hw : find_user db uid = some w)
    (hc : ∃ c ∈ db.rci_collabs, c.rci_id = rid ∧ c.user_id = uid)
    (_hd : ∃ d ∈ db.damages, d.rci_id = rid ∧ d.created_by = uid) :
    uid ∈ (collaborators_of db rid).map User.user_id ∧
    get_rci_by_id db (.str rid) true =
      .ok ⟨r, some (collaborators_of db rid),
           some ((damages_of db rid).map (damage_view db))⟩ ∧
    get_rci_by_id (delete_user db uid) (.str rid) true =
      .ok ⟨r, some (collaborators_of (delete_user db uid) rid),
           some ((damages_of db rid).map
             (damage_view (delete_user db uid)))⟩ ∧
    ((damages_of db rid).map (damage_view (delete_user db uid))).map
        (fun dv => (dv.item, dv.text, dv.created_by)) =
      ((damages_of db rid).map (damage_view db)).map
        (fun dv => (dv.item, dv.text, dv.created_by)) ∧
    (∀ u2 ∈ collaborators_of (delete_user db uid) rid, u2.user_id ≠ uid) ∧
    (∀ dv ∈ (damages_of db rid).map (damage_view (delete_user db uid)),
      dv.created_by = uid →
        dv.firstname = "DELETED" ∧ dv.lastname = "USER") := by
  obtain ⟨c, hcmem, hcr, hcu⟩ := hc
  have hwid : w.user_id = uid := by
    have := List.find?_some hw
    simpa using this
  refine ⟨?_, ?_, ?_, ?_, ?_, ?_⟩
  · refine List.mem_map.mpr ⟨w, ?_, hwid⟩
    refine List.mem_filterMap.mpr ⟨c, ?_, ?_⟩
    · exact List.mem_filter.mpr ⟨hcmem, by simp [hcr]⟩
    · rw [hcu]; exact hw
  · simp [get_rci_by_id, hr]
  · simp [get_rci_by_id]
    have : find_rci (delete_user db uid) rid = some r := hr
    simp [this]
    rfl
  · rw [List.map_map, List.map_map]
    refine List.map_congr_left ?_
    intro d _
    have h1 := damage_view_proj (delete_user db uid) d
    have h2 := damage_view_proj db d
    simp only [Function.comp_apply]
    rw [h1.1, h1.2.1, h1.2.2, h2.1, h2.2.1, h2.2.2]
  · intro u2 hu2
    obtain ⟨c2, _, hfind⟩ := List.mem_filterMap.mp hu2
    exact find_user_delete_ne db uid c2.user_id u2 hfind
  · intro dv hdv hcb
    obtain ⟨d, _, rfl⟩ := List.mem_map.mp hdv
    have hdc : d.created_by = uid := by
      rw [← (damage_view_proj (delete_user db uid) d).2.2]; exact hcb
    unfold damage_view
    rw [hdc, find_user_delete_self]
    exact ⟨rfl, rfl⟩

/-- Instantiation of C2 on the sample store: deleting the collaborator
leaves the rci and its damage intact, removes them from the collaborator
list, and renders their damage with the names DELETED / USER. -/
theorem C2_witness :
    find_rci exDb "rci-1" = some exRci ∧
    find_user exDb "collab-1" = some collabUser ∧
    "collab-1" ∈ (collaborators_of exDb "rci-1").map User.user_id ∧
    (∀ u2 ∈ collaborators_of (delete_user exDb "collab-1") "rci-1",
      u2.user_id ≠ "collab-1") ∧
    (∀ dv ∈ (damages_of exDb "rci-1").map
        (damage_view (delete_user exDb "collab-1")),
      dv.created_by = "collab-1" →
        dv.firstname = "DELETED" ∧ dv.lastname = "USER") := by
  have h := C2_soft_decay exDb "rci-1" "collab-1" exRci collabUser rfl rfl
    (by decide) (by decide)
  exact ⟨rfl, rfl, h.1, h.2.2.2.2.1, h.2.2.2.2.2⟩

/-- Claim C5 counterexample: an rci whose building name is the empty
string.  The search string equal to that building name is the empty
string, for which the search returns an empty list (as claim C7 and its
test require), so the rci is not returned even to a MODERATE_RCIS
holder. -/
theorem C5_counterexample :
    has_permission modUser Permission.MODERATE_RCIS = true ∧
    emptyBuildingRci ∈ emptyBuildingDb.rcis ∧
    emptyBuildingRci.building_name = "" ∧
    search_rcis emptyBuildingDb (some "") modUser = .ok [] :=
  ⟨rfl, by decide, rfl, rfl⟩

/-- Claim C5 (amended): for every created rci and every logged-in user
holding MODERATE_RCIS, provided the search string is non-empty,
`search_rcis` returns that rci when the search string equals the rci's
building name, its room name, or a collaborator's firstname, lastname or
username — exactly one result when the store holds that single record. -/
theorem C5_search_completeness (db : Db) (u : User) (r : Rci) (s : String)
    (hp : has_permission u Permission.MODERATE_RCIS = true)
    (hr : r ∈ db.rcis) (hs : s ≠ "")
    (hm : s = r.building_name ∨ s = r.room_name ∨
      ∃ c ∈ db.rci_collabs, c.rci_id = r.rci_id ∧
        ∃ w ∈ db.users, w.user_id = c.user_id ∧
          (s = w.firstname ∨ s = w.lastname ∨ s = w.username)) :
    search_rcis db (some s) u =
      .ok (db.rcis.filter (fun x => rci_matches db s x)) ∧
    r ∈ db.rcis.filter (fun x => rci_matches db s x) ∧
    (db.rcis = [r] → db.rcis.filter (fun x => rci_matches db s x) = [r]) := by
  have hmatch : rci_matches db s r = true := by
    unfold rci_matches
    rcases hm with h | h | ⟨c, hc, hcr, w, hwmem, hwid, hname⟩
    · simp [← h]
    · simp [← h]
    · have hin : (db.users.any (fun x => x.user_id == c.user_id &&
          (x.firstname == s || x.lastname == s || x.username == s))) = true := by
        refine List.any_eq_true.mpr ⟨w, hwmem, ?_⟩
        rcases hname with h | h | h <;> simp [hwid, ← h]
      have houter : (db.rci_collabs.any (fun c2 => c2.rci_id == r.rci_id &&
          db.users.any (fun x => x.user_id == c2.user_id &&
            (x.firstname == s || x.lastname == s || x.username == s)))) =
          true := by
        refine List.any_eq_true.mpr ⟨c, hc, ?_⟩
        simp [hcr, hin]
      simp [houter]
  refine ⟨by simp [search_rcis, hp, hs], List.mem_filter.mpr ⟨hr, hmatch⟩, ?_⟩
  intro hsingle
  rw [hsingle]
  simp [List.filter, hmatch]

/-- Instantiation of C5 (amended) on the sample store: the single rci is
found by its building name and by its collaborator's firstname. -/
theorem C5_witness :
    has_permission modUser Permission.MODERATE_RCIS = true ∧
    exRci ∈ exDb.rcis ∧
    search_rcis exDb (some "Johnson Hall") modUser = .ok [exRci] ∧
    search_rcis exDb (some "Carl") modUser = .ok [exRci] := by
  have h1 := C5_search_completeness exDb modUser exRci "Johnson Hall" rfl
    (by decide) (by decide) (Or.inl rfl)
  have h2 := C5_search_completeness exDb modUser exRci "Carl" rfl
    (by decide) (by decide)
    (Or.inr (Or.inr ⟨⟨"rci-1", "collab-1"⟩, by decide, rfl,
      collabUser, by decide, rfl, Or.inl rfl⟩))
  exact ⟨rfl, by decide,
    by rw [h1.1, h1.2.2 rfl], by rw [h2.1, h2.2.2 rfl]⟩

/-- Assigning a key that is not yet present appends the pair. -/
theorem pyDictSet_fresh {α : Type} (d : List (String × α)) (k : String)
    (v : α) (h : ∀ p ∈ d, p.1 ≠ k) : pyDictSet d k v = d ++ [(k, v)] := by
  unfold pyDictSet
  have hany : d.any (fun p => p.1 == k) = false := by
    refine List.any_eq_false.mpr ?_
    intro p hp
    simpa using h p hp
  simp [hany]

/-- Loop invariant of `dict_factory`: over pairwise-distinct column names
not already present in the accumulator, and a row long enough, the loop
appends one `(name, row value)` pair per column. -/
theorem dict_factory_go_eq {α : Type} (cols : List Col) (row : List α) :
    ∀ (idx : Nat) (d : List (String × α)),
    (∀ c ∈ cols, ∀ p ∈ d, p.1 ≠ c.name) →
    (cols.map Col.name).Nodup →
    idx + cols.length ≤ row.length →
    dict_factory_go cols row idx d =
      .ok (d ++ (cols.map Col.name).zip ((row.drop idx).take cols.length)) := by
  induction cols with
  | nil =>
    intro idx d _ _ _
    simp [dict_factory_go]
  | cons c cs ih =>
    intro idx d hfresh hnodup hlen
    have hlen2 : idx + 1 + cs.length ≤ row.length := by
      simp only [List.length_cons] at hlen
      omega
    have hidx : idx < row.length := by omega
    cases hv : row[idx]? with
    | none =>
      exact absurd (List.getElem?_eq_none_iff.mp hv) (by omega)
    | some v =>
      have hveq : row[idx] = v := by
        rw [List.getElem?_eq_getElem hidx] at hv
        exact Option.some.inj hv
      have hnotmem : c.name ∉ cs.map Col.name :=
        (List.nodup_cons.mp (by simpa using hnodup)).1
      have hfresh2 : ∀ c2 ∈ cs, ∀ p ∈ d ++ [(c.name, v)], p.1 ≠ c2.name := by
        intro c2 hc2 p hp
        rcases List.mem_append.mp hp with hp2 | hp2
        · exact hfresh c2 (by simp [hc2]) p hp2
        · have hpv : p = (c.name, v) := by simpa using hp2
          subst hpv
          intro hcontra
          apply hnotmem
          have hnames : c.name = c2.name := hcontra
          rw [hnames]
          exact List.mem_map.mpr ⟨c2, hc2, rfl⟩
      have hfresh_c : ∀ p ∈ d, p.1 ≠ c.name :=
        fun p hp => hfresh c (by simp) p hp
      have hstep : dict_factory_go (c :: cs) row idx d =
          dict_factory_go cs row (idx + 1) (pyDictSet d c.name v) := by
        simp [dict_factory_go, hv]
      rw [hstep, pyDictSet_fresh d c.name v hfresh_c,
          ih (idx + 1) (d ++ [(c.name, v)]) hfresh2
            ((List.nodup_cons.mp (by simpa using hnodup)).2) hlen2]
      have hdrop : row.drop idx = v :: row.drop (idx + 1) := by
        rw [List.drop_eq_getElem_cons hidx, hveq]
      rw [hdrop]
      simp [List.take_succ_cons, List.zip_cons_cons]

/-- Claim C9 counterexample: with two described columns sharing the name
"a" the returned dict has a single entry whose value is `row[1]`, not one
entry per described column with value `row[i]` at index `i`; and a row
shorter than the description makes the loop's `row[idx]` raise
IndexError instead of returning a dict. -/
theorem C9_counterexample :
    dict_factory [⟨"a", []⟩, ⟨"a", []⟩] [(0 : Nat), 1] = .ok [("a", 1)] ∧
    [("a", (1 : Nat))].length = 1 ∧
    ([⟨"a", []⟩, ⟨"a", []⟩] : List Col).length = 2 ∧
    dict_factory [⟨"a", []⟩] ([] : List Nat) = .error "IndexError" :=
  ⟨rfl, rfl, rfl, rfl⟩

/-- Claim C9 (amended): for every cursor whose described column names are
pairwise distinct and every row at least as long as the description,
`dict_factory` returns the dict pairing the column names with the row
values in order: its keys are exactly the column names, the value for the
column at index `i` is `row[i]`, and it has one entry per described
column. -/
theorem C9_dict_factory (desc : List Col) (row : List Nat)
    (hn : (desc.map Col.name).Nodup) (hl : desc.length ≤ row.length) :
    dict_factory desc row =
      .ok ((desc.map Col.name).zip (row.take desc.length)) ∧
    ((desc.map Col.name).zip (row.take desc.length)).map Prod.fst =
      desc.map Col.name ∧
    ((desc.map Col.name).zip (row.take desc.length)).length =
      desc.length := by
  have hfirst : dict_factory desc row =
      .ok ((desc.map Col.name).zip (row.take desc.length)) := by
    unfold dict_factory
    rw [dict_factory_go_eq desc row 0 [] (by simp) hn (by simpa using hl)]
    simp
  refine ⟨hfirst, ?_, ?_⟩
  · refine List.map_fst_zip _ _ ?_
    simp [List.length_take]
    omega
  · rw [List.length_zip]
    simp [List.length_take]
    omega

/-- Instantiation of C9 (amended) on a concrete two-column cursor. -/
theorem C9_witness :
    ([⟨"a", []⟩, ⟨"b", []⟩] : List Col).map Col.name = ["a", "b"] ∧
    dict_factory [⟨"a", []⟩, ⟨"b", []⟩] [(10 : Nat), 20, 30] =
      .ok [("a", 10), ("b", 20)] := by
  have h := C9_dict_factory [⟨"a", []⟩, ⟨"b", []⟩] [10, 20, 30]
    (by decide) (by decide)
  exact ⟨rfl, by rw [h.1]; rfl⟩

end MirthfulRcis
